import Mathlib

/-
Verification development for the postlogin session service
(`app/service/postlogin_service.py`, `app/service/redis_service.py`,
`app/service/token_verification_service.py`, `app/schema/postlogin_dto.py`).

The Python services are shallowly embedded as pure Lean functions: the
process clock, the Redis side effects and the outbound HTTP call become
explicit parameters (a state value, a request instant, an abstract HTTP
outcome), exceptions become `Except HTTPException`, and Python dict values
become the small `JVal` type below.
-/

namespace Postlogin

/-- Mirror of `BasicCustomerInfo` in `app/schema/postlogin_dto.py`: three
optional string fields, passed through opaquely by the core. -/
structure BasicCustomerInfo where
  customer_id : Option String
  customer_name : Option String
  customer_type : Option String
deriving Repr, DecidableEq

/-- Values that can appear in the Python dicts these services handle:
strings, numbers, booleans, nested dicts, the opaque customer-info object
and `None`. Dicts are association lists with string keys, matching the
JSON documents stored in Redis and the JWT claim sets. -/
inductive JVal where
  | str (s : String)
  | num (n : Int)
  | bool (b : Bool)
  | obj (fields : List (String × JVal))
  | info (i : BasicCustomerInfo)
  | null
deriving Repr

/-- Python truthiness for a `JVal` (used by the services in `if not x`
checks): empty strings, zero, `False`, empty dicts and `None` are falsy.
A dict is falsy exactly when it has no entries, so no recursion is needed. -/
def JVal.truthy : JVal → Bool
  | .str s => !s.isEmpty
  | .num n => n != 0
  | .bool b => b
  | .obj l => !l.isEmpty
  | .info _ => true
  | .null => false

/-- The f-string rendering of a `JVal`, used where the Python code
interpolates a dict value into a message or a key (for example
`f"session:\x7bchat_username\x7d"`). For scalar values this matches
Python exactly; the composite cases are abbreviated placeholders, and no
theorem below evaluates them. -/
def JVal.fstr : JVal → String
  | .str s => s
  | .num n => toString n
  | .bool b => if b then "True" else "False"
  | .obj _ => "\x7bdict\x7d"
  | .info _ => "BasicCustomerInfo"
  | .null => "None"

/-- Whether a `JVal` is a plain string. Non-string values placed in HTTP
headers make the HTTP client raise before the request is sent. -/
def JVal.isStr : JVal → Bool
  | .str _ => true
  | _ => false

/-- Lookup in a string-keyed association list: `d.get(k)` on a Python
dict whose keys are unique. -/
def alistGet {α : Type} : List (String × α) → String → Option α
  | [], _ => none
  | (k, v) :: rest, key => if k = key then some v else alistGet rest key

/-- Assignment `d[k] = v` on a Python dict: replace the existing entry
for the key, or append a new one. -/
def alistSet {α : Type} : List (String × α) → String → α → List (String × α)
  | [], key, v => [(key, v)]
  | (k, w) :: rest, key, v =>
      if k = key then (k, v) :: rest else (k, w) :: alistSet rest key v

/-- The Python `a or b` on dict values: the first operand if truthy,
otherwise the second. -/
def pyOrJ (a b : JVal) : JVal := if a.truthy then a else b

/-- Mirror of `fastapi.HTTPException` as raised by the services: a status
code and a detail message. -/
structure HTTPException where
  status_code : Nat
  detail : String
deriving Repr, DecidableEq

/-! ## Session Store (`app/service/redis_service.py`) -/

/-- A value held in Redis. Everything the orchestrator stores is
`json.dumps` of a dict, embedded structurally as `jsonOf`; `raw` stands
for any other string an external writer could have left at the key (which
`json.loads` fails to parse as a session document). -/
inductive RedisVal where
  | jsonOf (d : List (String × JVal))
  | raw (s : String)
deriving Repr

/-- Python truthiness of the string `RedisService.get` returns: the JSON
serialization of a dict is never empty, a raw string is truthy when
non-empty. -/
def RedisVal.rtruthy : RedisVal → Bool
  | .jsonOf _ => true
  | .raw s => !s.isEmpty

/-- The state of the Redis collaborator for one request: whether the
client object exists (`is_connected`), whether the next get or set
operation hits a connectivity failure (the exceptions the service catches),
and the key-value table with the per-entry TTL recorded at write time. -/
structure RedisState where
  connected : Bool
  getFails : Bool
  setFails : Bool
  store : List (String × RedisVal × Option Nat)
deriving Repr

namespace RedisService

/-- Mirror of `RedisService.set`: catches every exception and returns a
boolean. A missing client or a connectivity failure yields `false` and
leaves the table untouched; otherwise the entry is written with the TTL
when a truthy TTL is given (`setex`), without one otherwise (`set`),
and `true` is returned. -/
def set (st : RedisState) (key : String) (value : RedisVal) (ttl : Option Nat) :
    RedisState × Bool :=
  if !st.connected then (st, false)
  else if st.setFails then (st, false)
  else
    match ttl with
    | some t =>
        if t != 0 then
          (⟨st.connected, st.getFails, st.setFails,
            alistSet st.store key (value, some t)⟩, true)
        else
          (⟨st.connected, st.getFails, st.setFails,
            alistSet st.store key (value, none)⟩, true)
    | none =>
        (⟨st.connected, st.getFails, st.setFails,
          alistSet st.store key (value, none)⟩, true)

/-- Mirror of `RedisService.get`: returns the stored string, or `none`
both when the key is absent and when the client is missing or the read
raises (the exception is caught and `None` is returned). -/
def get (st : RedisState) (key : String) : Option RedisVal :=
  if !st.connected then none
  else if st.getFails then none
  else (alistGet st.store key).map Prod.fst

end RedisService

/-! ## Token Issuer (modelled: `app.security.auth_handler` is imported by
`postlogin_service.py` but its module is not under `src/`) -/

/-- Modelled from the spec: the Token Issuer (`app.security.auth_handler`)
is not under `src/`. A signed token is self-contained: it carries the
claim set, issue and expiry instants, and the signing key it was sealed
with. -/
structure SignedToken where
  claims : List (String × JVal)
  iat : Nat
  exp : Nat
  sig : String
deriving Repr

/-- Modelled from the spec: what a caller can present as a refresh token
string — the empty string, a malformed or foreign string, or a token the
issuer produced. -/
inductive WireToken where
  | empty
  | malformed (raw : String)
  | signed (t : SignedToken)
deriving Repr

/-- Whether the presented token string is empty (`if not refresh_token`). -/
def WireToken.isEmptyTok : WireToken → Bool
  | .empty => true
  | _ => false

/-- Modelled from the spec: `auth_handler.create_access_token` mints a
signed, time-bounded token embedding the given claim set plus expiry
metadata (`exp = now + ttl`). -/
def create_access_token (data : List (String × JVal)) (now ttl : Nat)
    (secret : String) : SignedToken :=
  ⟨data, now, now + ttl, secret⟩

/-- Modelled from the spec: the compact serialized form of a signed token
is a non-empty string (a signed JWT always has a non-empty header
segment); the body is abstracted as the signing key. -/
def SignedToken.encoded (t : SignedToken) : String := "ey." ++ t.sig

/-- Modelled from the spec: `auth_handler._decode_access_token` fails with
a distinct error when the token is structurally malformed, when the
signature does not verify, and when the token is expired; otherwise it
returns the embedded claim set. -/
def _decode_access_token (tok : WireToken) (now : Nat) (secret : String) :
    Except HTTPException (List (String × JVal)) :=
  match tok with
  | .empty => .error ⟨401, "Malformed token"⟩
  | .malformed _ => .error ⟨401, "Malformed token"⟩
  | .signed t =>
      if t.sig != secret then .error ⟨401, "Invalid token signature"⟩
      else if t.exp ≤ now then .error ⟨401, "Token expired"⟩
      else .ok t.claims

/-! ## External Verifier (`app/service/token_verification_service.py`) -/

/-- The two environment values the verifier reads at construction:
`SME_VERIFY_BASE_URL` and `SME_VERIFY_TOKEN_KEY` (`none` when unset). -/
structure SmeConfig where
  sme_verify_base_url : Option String
  sme_verify_token_key : Option String
deriving Repr

/-- Python falsiness of an optional env string: unset or empty. -/
def optFalsy : Option String → Bool
  | none => true
  | some s => s.isEmpty

/-- The `sme_payload` dict built by `verify_token`: all three keys are
always present, so the `.get` calls in `verify_sme_token` never fall back
to their defaults. -/
structure SmePayload where
  userId : JVal
  requestId : JVal
  tokenKey : JVal
deriving Repr

/-- The headers of the outbound validate-session call (the constant
Content-Type header is omitted). -/
structure SmeHeaders where
  apikey : String
  x_request_id : JVal
  x_session_token : JVal
  x_user_id : JVal
deriving Repr

/-- The observable outcome of the outbound HTTP POST: a transport-level
exception, or a response with a status code and a body (`none` when the
body is not parseable JSON). -/
inductive HttpOutcome where
  | transportError
  | response (status : Nat) (body : Option (List (String × JVal)))
deriving Repr

/-- The x-request-id header value computed in `verify_sme_token`:
`payload.get("requestId") or payload.get("userId") or str(uuid.uuid4())`.
The freshly generated unique id is the explicit `fresh` parameter. -/
def sme_x_request_id (requestId userId : JVal) (fresh : String) : JVal :=
  pyOrJ requestId (pyOrJ userId (.str fresh))

/-- The outcome of `verify_sme_token`: the validity flag and the optional
error message. -/
structure VerifyResult where
  isValid : Bool
  message : Option String
deriving Repr

/-- Reading `not response_data.get("data", \x7b\x7d).get("isExpire", True)`
from a parsed 200 body: `none` models the AttributeError raised when the
`data` field is present but not a dict (caught by the enclosing handler);
otherwise the validity flag, with a missing field defaulting to expired. -/
def sme_is_valid_of_body (rd : List (String × JVal)) : Option Bool :=
  match alistGet rd "data" with
  | none => some false
  | some (.obj d) => some (!(((alistGet d "isExpire").getD (.bool true)).truthy))
  | some _ => none

/-- Mirror of `verify_sme_token`: raises a configuration error when either
env value is falsy; otherwise builds the outbound headers and interprets
the HTTP outcome fail-closed — any transport exception, non-200 status,
unparseable body, ill-shaped `data` field, or non-string header value
(which makes the client raise before sending) yields `isValid = false`.
Only a 200 response whose `data.isExpire` reads falsy yields `true`. -/
def verify_sme_token (cfg : SmeConfig) (payload : SmePayload) (fresh : String)
    (out : HttpOutcome) : Except HTTPException (SmeHeaders × VerifyResult) :=
  if optFalsy cfg.sme_verify_base_url then
    .error ⟨500, "SME_VERIFY_BASE_URL is not defined"⟩
  else if optFalsy cfg.sme_verify_token_key then
    .error ⟨500, "SME_VERIFY_TOKEN_KEY is not defined"⟩
  else
    let hs : SmeHeaders :=
      ⟨cfg.sme_verify_token_key.getD "",
       sme_x_request_id payload.requestId payload.userId fresh,
       payload.tokenKey, payload.userId⟩
    if !(hs.x_request_id.isStr && hs.x_session_token.isStr && hs.x_user_id.isStr) then
      .ok (hs, ⟨false, some "Error verify tokenKey"⟩)
    else
      match out with
      | .transportError => .ok (hs, ⟨false, some "Error verify tokenKey"⟩)
      | .response status body =>
          if status != 200 then .ok (hs, ⟨false, some "Error verify tokenKey"⟩)
          else
            match body with
            | none => .ok (hs, ⟨false, some "Error verify tokenKey"⟩)
            | some rd =>
                match sme_is_valid_of_body rd with
                | none => .ok (hs, ⟨false, some "Error verify tokenKey"⟩)
                | some v => .ok (hs, ⟨v, none⟩)

/-- Whether a dict value equals a given Python string literal
(`bu == "SME"`): only a string value can compare equal. -/
def JVal.eqStr (v : JVal) (s : String) : Bool :=
  match v with
  | .str t => t == s
  | _ => false

/-- Mirror of `verify_token`: the SME variant requires a truthy userId
(else a 400 is raised), builds the `sme_payload` dict with
`request_id or ""`, delegates to `verify_sme_token` and returns its
validity flag; every other business unit raises 400 "Missing BU". -/
def verify_token (bu token_key user_id request_id : JVal) (cfg : SmeConfig)
    (fresh : String) (out : HttpOutcome) : Except HTTPException Bool :=
  if bu.eqStr "SME" then
    if !user_id.truthy then .error ⟨400, "Missing userId"⟩
    else
      match verify_sme_token cfg ⟨user_id, pyOrJ request_id (.str ""), token_key⟩ fresh out with
      | .error e => .error e
      | .ok (_, r) => .ok r.isValid
  else .error ⟨400, "Missing BU"⟩

/-! ## Session Orchestrator (`app/service/postlogin_service.py`) -/

/-- A channel-setting dict as held in the static `mock_channels` table:
string keys to string values. -/
abbrev ChannelSetting := List (String × String)

/-- The channel-lookup table. The source hardcodes `mock_channels` inside
`_get_channel_setting` as a stand-in for the database; the orchestrator is
parameterized over the table so that the lookup collaborator stays a
replaceable input, with `mock_channels` as its concrete value in this
repository. -/
abbrev ChannelTable := List (String × ChannelSetting)

/-- The static table in `PostloginService._get_channel_setting`. -/
def mock_channels : ChannelTable :=
  [("1", [("id", "1"), ("postLoginBu", "SME")]),
   ("2", [("id", "2"), ("postLoginBu", "RETAIL")]),
   ("sme", [("id", "sme"), ("postLoginBu", "SME")]),
   ("retail", [("id", "retail"), ("postLoginBu", "RETAIL")])]

/-- Mirror of `_get_channel_setting`: a plain dict lookup; a non-string
channel id never matches a key of the string-keyed table. -/
def _get_channel_setting (channels : ChannelTable) (channel_id : JVal) :
    Option ChannelSetting :=
  match channel_id with
  | .str s => alistGet channels s
  | _ => none

/-- Python truthiness of the looked-up channel setting
(`if not channel_setting`): absent or an empty dict. -/
def settingFalsy : Option ChannelSetting → Bool
  | none => true
  | some cs => cs.isEmpty

/-- Python truthiness of the optional `postLoginBu` string
(`if not post_login_bu`): absent or empty. -/
def strOptFalsy : Option String → Bool
  | none => true
  | some s => s.isEmpty

/-- Python `str.upper()` as used on the business-unit value: map ASCII
lowercase letters to uppercase (all values in the channel table are plain
ASCII). Defined by structural recursion over the character list so it
evaluates definitionally. -/
def pyUpper (s : String) : String := ⟨s.data.map Char.toUpper⟩

/-- The configuration the orchestrator reads: the session TTL
(`redis_settings.SME_SESSION_TTL`), and — modelled from the spec, since
`auth_handler` is not under `src/` — the token lifetime and signing
secret of the Token Issuer. -/
structure ServiceConfig where
  session_ttl : Nat
  token_ttl : Nat
  secret : String
deriving Repr

/-- Mirror of `SessionData` in `app/schema/postlogin_dto.py`. -/
structure SessionData where
  cif : String
  chat_username : String
  basic_customer_info : BasicCustomerInfo
  token_key : String
  bu : String
  created_at : Nat
  updated_at : Nat
  request_id_header : String
  payload : List (String × JVal)
deriving Repr

/-- The pydantic `.dict()` serialization of a `SessionData`: field names
are the declared snake_case names (the model defines no aliases), so this
is exactly the key set of the JSON document persisted to Redis. -/
def SessionData.dict (s : SessionData) : List (String × JVal) :=
  [("cif", .str s.cif),
   ("chat_username", .str s.chat_username),
   ("basic_customer_info", .info s.basic_customer_info),
   ("token_key", .str s.token_key),
   ("bu", .str s.bu),
   ("created_at", .num s.created_at),
   ("updated_at", .num s.updated_at),
   ("request_id_header", .str s.request_id_header),
   ("payload", .obj s.payload)]

/-- The `token_data` dict built in `_create_tokens`: the four claims read
from the session dict with `.get` (absent keys become `None`). -/
def token_data_of (bu : JVal) (session_data : List (String × JVal)) :
    List (String × JVal) :=
  [("chatUsername", (alistGet session_data "chat_username").getD .null),
   ("bu", bu),
   ("cif", (alistGet session_data "cif").getD .null),
   ("tokenKey", (alistGet session_data "token_key").getD .null)]

/-- Mirror of `PostloginService._create_tokens`: the access token and the
refresh token are both produced by `auth_handler.create_access_token` on
the same `token_data` dict. -/
def _create_tokens (bu : JVal) (session_data : List (String × JVal))
    (now ttl : Nat) (secret : String) : SignedToken × SignedToken :=
  (create_access_token (token_data_of bu session_data) now ttl secret,
   create_access_token (token_data_of bu session_data) now ttl secret)

/-- The result dict of a successful init or renew call. -/
structure TokenResponse where
  token : SignedToken
  refreshToken : SignedToken
  message : String
deriving Repr

/-- Mirror of `PostloginService.init_postlogin_user_session`. The request
instant `now` stands for the single moment the source samples the clock;
the pair result carries the response (or raised exception) together with
the Redis state after the call. The boolean returned by
`RedisService.set` is discarded, exactly as in the source. -/
def init_postlogin_user_session (channels : ChannelTable) (cfg : ServiceConfig)
    (st : RedisState) (cif : String) (basic_customer_info : BasicCustomerInfo)
    (token_key : String) (payload : List (String × JVal))
    (request_id_header : String) (now : Nat) :
    Except HTTPException TokenResponse × RedisState :=
  let channel_id := (alistGet payload "channelId").getD .null
  if !channel_id.truthy then (.error ⟨400, "Invalid channel id"⟩, st)
  else
    let channel_setting := _get_channel_setting channels channel_id
    if settingFalsy channel_setting then
      (.error ⟨404, "Cannot find channel with id " ++ channel_id.fstr⟩, st)
    else
      let post_login_bu := alistGet (channel_setting.getD []) "postLoginBu"
      if strOptFalsy post_login_bu then
        (.error ⟨404, "Missing BU in channel with id " ++ channel_id.fstr⟩, st)
      else
        let bu := pyUpper (post_login_bu.getD "")
        let chat_username := "VPB-" ++ bu ++ "-" ++ cif
        if !st.connected then (.error ⟨500, "Internal Server Error"⟩, st)
        else
          let session_data : SessionData :=
            ⟨cif, chat_username, basic_customer_info, token_key, bu,
             now, now, request_id_header, payload⟩
          let tokens := _create_tokens (.str bu) session_data.dict now cfg.token_ttl cfg.secret
          let redis_key := "session:" ++ chat_username
          let setres := RedisService.set st redis_key (.jsonOf session_data.dict)
            (some cfg.session_ttl)
          (.ok ⟨tokens.1, tokens.2, bu ++ " session initialized successfully"⟩, setres.1)

/-- Mirror of `PostloginService.renew_postlogin_user_token`. The presented
refresh token, the request instant, the fresh uuid the verifier would
generate, the verifier env configuration and the outcome of the outbound
verification call are explicit parameters; the pair result carries the
response (or raised exception) together with the Redis state after the
call. The boolean returned by `RedisService.set` is discarded, exactly as
in the source. -/
def renew_postlogin_user_token (cfg : ServiceConfig) (st : RedisState)
    (refresh_token : WireToken) (now : Nat) (fresh : String)
    (vcfg : SmeConfig) (out : HttpOutcome) :
    Except HTTPException TokenResponse × RedisState :=
  if refresh_token.isEmptyTok then (.error ⟨400, "Refresh token is required"⟩, st)
  else
    match _decode_access_token refresh_token now cfg.secret with
    | .error _ => (.error ⟨400, "Invalid refresh token"⟩, st)
    | .ok payload_refresh_token =>
      let chat_username := (alistGet payload_refresh_token "chatUsername").getD .null
      let bu := (alistGet payload_refresh_token "bu").getD .null
      if !chat_username.truthy || !bu.truthy then
        (.error ⟨400, "Invalid refresh token"⟩, st)
      else
        let redis_key := "session:" ++ chat_username.fstr
        match RedisService.get st redis_key with
        | none => (.error ⟨404, "Session not found"⟩, st)
        | some sv =>
          if !sv.rtruthy then (.error ⟨404, "Session not found"⟩, st)
          else
            match sv with
            | .raw _ => (.error ⟨500, "Invalid session data"⟩, st)
            | .jsonOf parsed_session_data =>
              let token_key := (alistGet parsed_session_data "tokenKey").getD .null
              let cif := (alistGet parsed_session_data "cif").getD .null
              let request_id_header :=
                (alistGet parsed_session_data "requestIdHeader").getD (.str "")
              if !token_key.truthy then (.error ⟨400, "Invalid tokenKey"⟩, st)
              else
                let request_id_payload := pyOrJ request_id_header (.str "")
                match verify_token bu token_key cif request_id_payload vcfg fresh out with
                | .error e => (.error e, st)
                | .ok is_valid =>
                  if !is_valid then
                    (.error ⟨401, "Verify " ++ bu.fstr ++ " token failed"⟩, st)
                  else
                    let parsed2 := alistSet parsed_session_data "updated_at" (.num now)
                    let tokens := _create_tokens bu parsed2 now cfg.token_ttl cfg.secret
                    let setres := RedisService.set st redis_key (.jsonOf parsed2)
                      (some cfg.session_ttl)
                    (.ok ⟨tokens.1, tokens.2, bu.fstr ++ " token renewed successfully"⟩,
                     setres.1)

/-! ## Shared concrete fixtures for the theorems below -/

/-- Service configuration used by the concrete runs: the default session
TTL of 3600 seconds, a token lifetime and a signing secret. -/
def cfg0 : ServiceConfig := ⟨3600, 900, "secret-key"⟩

/-- A connected, healthy, empty store. -/
def st0 : RedisState := ⟨true, false, false, []⟩

/-- A connected, empty store whose next write hits a connectivity failure. -/
def stSetFail : RedisState := ⟨true, false, true, []⟩

/-- A connected, empty store whose next read hits a connectivity failure. -/
def stGetFail : RedisState := ⟨true, true, false, []⟩

/-- The customer profile from the repository example request. -/
def bci0 : BasicCustomerInfo := ⟨some "CUST123", some "John Doe", some "SME"⟩

/-- A present verifier configuration. -/
def vcfg0 : SmeConfig := ⟨some "http://verify.local", some "apikey-1"⟩

/-- A verification outcome: HTTP 200 whose payload says the credential is
not expired. -/
def outOk : HttpOutcome := .response 200 (some [("data", .obj [("isExpire", .bool false)])])

/-- A verification outcome: the external call answers HTTP 500. -/
def outErr : HttpOutcome := .response 500 none

/-- A session document that uses the camelCase storage keys the renewal
path reads. -/
def sessCamel : List (String × JVal) := [("tokenKey", .str "tk-9"), ("cif", .str "alice")]

/-- A healthy store holding `sessCamel` under `session:alice`. -/
def stCamel : RedisState := ⟨true, false, false, [("session:alice", (.jsonOf sessCamel, some 3600))]⟩

/-- The store `stCamel` with the next write failing. -/
def stCamelSetFail : RedisState := ⟨true, false, true, [("session:alice", (.jsonOf sessCamel, some 3600))]⟩

/-- A store whose entry for `session:alice` is not parseable JSON. -/
def stRaw : RedisState := ⟨true, false, false, [("session:alice", (.raw "garbage", none))]⟩

/-- A refresh token for principal `alice`, signed with the fixture secret
and valid until instant 2000. -/
def rtAlice : WireToken := .signed ⟨[("chatUsername", .str "alice"), ("bu", .str "SME")], 100, 2000, "secret-key"⟩

/-- A refresh token whose claims lack the `bu` field. -/
def rtNoBu : WireToken := .signed ⟨[("chatUsername", .str "alice")], 100, 2000, "secret-key"⟩

/-- A refresh token for principal `bob`, for whom no session is stored. -/
def rtBob : WireToken := .signed ⟨[("chatUsername", .str "bob"), ("bu", .str "SME")], 100, 2000, "secret-key"⟩

/-- A channel table whose only channel has no business-unit mapping. -/
def chNoBu : ChannelTable := [("nobu", [("id", "nobu")])]

/-- The session record the repository example initialization persists. -/
def sdExample : SessionData :=
  ⟨"1234567890", "VPB-SME-1234567890", bci0, "valid_token_key_123", "SME",
   1000, 1000, "req-1", [("channelId", .str "sme")]⟩

/-- The store state after the repository example initialization. -/
def stAfterInit : RedisState :=
  ⟨true, false, false, [("session:VPB-SME-1234567890", (.jsonOf sdExample.dict, some 3600))]⟩

/-- The token minted by the repository example initialization. -/
def tokExample : SignedToken :=
  create_access_token
    [("chatUsername", .str "VPB-SME-1234567890"), ("bu", .str "SME"),
     ("cif", .str "1234567890"), ("tokenKey", .str "valid_token_key_123")]
    1000 900 "secret-key"

/-- Characterization of the verifier outcome used by the fail-closed
theorem: the SME verification yields `true` exactly on a 200 response
with a parseable body whose `data` dict reads a falsy `isExpire`. -/
def smeOutcomeValid : HttpOutcome → Bool
  | .response 200 (some rd) =>
      match alistGet rd "data" with
      | some (.obj d) => !(((alistGet d "isExpire").getD (.bool true)).truthy)
      | some _ => false
      | none => false
  | _ => false

/-- Whether a response body respects the external interface declaration
that `data.isExpire`, when present, is a boolean. -/
def isExpireTyped : HttpOutcome → Bool
  | .response 200 (some rd) =>
      match alistGet rd "data" with
      | some (.obj d) =>
          match alistGet d "isExpire" with
          | some (.bool _) => true
          | some _ => false
          | none => true
      | _ => true
  | _ => true

/-! ## Helper lemmas -/

/-- The Python `or` of two strings is a string. -/
theorem pyOrJ_isStr (a b : JVal) (ha : a.isStr = true) (hb : b.isStr = true) :
    (pyOrJ a b).isStr = true := by
  unfold pyOrJ
  split
  · exact ha
  · exact hb

/-- Writing a key and reading it back yields the written value. -/
theorem alistGet_alistSet_self {α : Type} (l : List (String × α)) (k : String) (v : α) :
    alistGet (alistSet l k v) k = some v := by
  induction l with
  | nil => simp [alistSet, alistGet]
  | cons hd tl ih =>
      by_cases h : hd.1 = k
      · simp [alistSet, alistGet, h]
      · simp [alistSet, alistGet, h, ih]

/-- The serialized form of a signed token is never the empty string. -/
theorem SignedToken.encoded_ne_empty (t : SignedToken) : t.encoded ≠ "" := by
  intro h
  have hlen := congrArg String.length h
  simp [SignedToken.encoded, String.length_append] at hlen
  exact absurd hlen.1 (by decide)

/-! ## Claim theorems -/

/-- C1: the claim states that renewing with the refresh token of a prior
successful initialization (session present, verifier answering valid)
succeeds with new tokens and an increased `updatedAt`. On the code it
does not: initialization persists the pydantic `.dict()` document, whose
keys are the declared snake_case names (`token_key`, `request_id_header`),
while renewal reads the camelCase keys `tokenKey` and `requestIdHeader`;
the `tokenKey` read therefore comes back absent and renewal raises the
client error 400 "Invalid tokenKey" before verification is even reached.
The first conjunct exhibits the key mismatch on every session document;
the second runs the full init-then-renew scenario of the repository
example (channel `sme`, verifier reporting not-expired) and shows the
renewal fail. -/
theorem init_then_renew_rejects_tokenKey :
    (∀ sd : SessionData,
      alistGet sd.dict "tokenKey" = none ∧
      alistGet sd.dict "token_key" = some (.str sd.token_key)) ∧
    init_postlogin_user_session mock_channels cfg0 st0 "1234567890" bci0
      "valid_token_key_123" [("channelId", .str "sme")] "req-1" 1000 =
      (.ok ⟨tokExample, tokExample, "SME session initialized successfully"⟩, stAfterInit) ∧
    renew_postlogin_user_token cfg0 stAfterInit (.signed tokExample) 1500
      "uuid-1" vcfg0 outOk = (.error ⟨400, "Invalid tokenKey"⟩, stAfterInit) := by
  refine ⟨fun sd => ⟨rfl, rfl⟩, ?_, ?_⟩
  · rfl
  · rfl

/-- C2: whenever the renewal flow reaches the verification step and the
external verifier reports the credential invalid, the call raises the
client error 401 "Verify `businessUnit` token failed" and the Redis state
is returned exactly as it was received: no store write happens before
verification has succeeded. -/
theorem renew_verification_false_is_client_error_and_frame
    (cfg : ServiceConfig) (st : RedisState) (rt : WireToken) (now : Nat)
    (fresh : String) (vcfg : SmeConfig) (out : HttpOutcome)
    (claims : List (String × JVal)) (cu bu tk : JVal)
    (parsed : List (String × JVal))
    (hne : rt.isEmptyTok = false)
    (hdec : _decode_access_token rt now cfg.secret = .ok claims)
    (hcu : alistGet claims "chatUsername" = some cu)
    (hcut : cu.truthy = true)
    (hbu : alistGet claims "bu" = some bu)
    (hbut : bu.truthy = true)
    (hget : RedisService.get st ("session:" ++ cu.fstr) = some (.jsonOf parsed))
    (htk : alistGet parsed "tokenKey" = some tk)
    (htkt : tk.truthy = true)
    (hver : verify_token bu tk ((alistGet parsed "cif").getD .null)
        (pyOrJ ((alistGet parsed "requestIdHeader").getD (.str "")) (.str ""))
        vcfg fresh out = .ok false) :
    renew_postlogin_user_token cfg st rt now fresh vcfg out =
      (.error ⟨401, "Verify " ++ bu.fstr ++ " token failed"⟩, st) := by
  simp only [renew_postlogin_user_token, hne, Bool.false_eq_true, if_false,
    hdec, hcu, hbu, Option.getD_some, hcut, hbut, Bool.not_true, Bool.or_self,
    hget, RedisVal.rtruthy, htk, htkt, hver, Bool.not_false, if_true]

/-- C2 witness: a concrete renewal whose outbound verification call
answers HTTP 500 raises 401 "Verify SME token failed" and leaves the
store untouched. -/
theorem renew_verification_false_witness :
    renew_postlogin_user_token cfg0 stCamel rtAlice 1000 "fresh-9" vcfg0 outErr =
      (.error ⟨401, "Verify SME token failed"⟩, stCamel) := by
  exact renew_verification_false_is_client_error_and_frame cfg0 stCamel rtAlice
    1000 "fresh-9" vcfg0 outErr
    [("chatUsername", .str "alice"), ("bu", .str "SME")]
    (.str "alice") (.str "SME") (.str "tk-9") sessCamel
    rfl rfl rfl rfl rfl rfl rfl rfl rfl rfl

/-- C3: a successful initialization (resolvable channel with a
business-unit mapping, connected store, successful persist) uppercases
the mapped business unit, derives the principal `VPB-<bu>-<cif>`, returns
two non-empty tokens and the `<bu> session initialized successfully`
message, and persists under `session:<principal>` (with the configured
TTL) exactly the session document whose `token_key` is the supplied
credential and whose `created_at` and `updated_at` both equal the request
instant. The final generic conjunct reads those three fields back from
any session document. -/
theorem init_success_persists_credential
    (channels : ChannelTable) (cfg : ServiceConfig) (st : RedisState)
    (cif : String) (bci : BasicCustomerInfo) (token_key : String)
    (payload : List (String × JVal)) (rid : String) (now : Nat)
    (cid : String) (cs : ChannelSetting) (pbu : String)
    (hcid : alistGet payload "channelId" = some (.str cid))
    (hcidne : cid ≠ "")
    (hch : alistGet channels cid = some cs)
    (hcsne : cs ≠ [])
    (hpbu : alistGet cs "postLoginBu" = some pbu)
    (hpbune : pbu ≠ "")
    (hconn : st.connected = true)
    (hset : st.setFails = false)
    (httl : cfg.session_ttl ≠ 0) :
    ∃ resp st2,
      init_postlogin_user_session channels cfg st cif bci token_key payload rid now =
        (.ok resp, st2) ∧
      resp.token.encoded ≠ "" ∧
      resp.refreshToken.encoded ≠ "" ∧
      resp.message = pyUpper pbu ++ " session initialized successfully" ∧
      alistGet st2.store ("session:" ++ ("VPB-" ++ pyUpper pbu ++ "-" ++ cif)) =
        some (.jsonOf (SessionData.dict
          ⟨cif, "VPB-" ++ pyUpper pbu ++ "-" ++ cif, bci, token_key, pyUpper pbu,
           now, now, rid, payload⟩), some cfg.session_ttl) ∧
      (∀ rec : SessionData,
        alistGet rec.dict "token_key" = some (.str rec.token_key) ∧
        alistGet rec.dict "created_at" = some (.num rec.created_at) ∧
        alistGet rec.dict "updated_at" = some (.num rec.updated_at)) := by
  have hcide : cid.isEmpty = false := by
    cases h : cid.isEmpty
    · rfl
    · exact absurd ((String.isEmpty_iff cid).mp h) hcidne
  have hcse : cs.isEmpty = false := by
    cases h : cs.isEmpty
    · rfl
    · exact absurd (List.isEmpty_iff.mp h) hcsne
  have hpbue : pbu.isEmpty = false := by
    cases h : pbu.isEmpty
    · rfl
    · exact absurd ((String.isEmpty_iff pbu).mp h) hpbune
  have httlb : (cfg.session_ttl != 0) = true := by simpa using httl
  refine ⟨⟨create_access_token (token_data_of (.str (pyUpper pbu)) (SessionData.dict
        ⟨cif, "VPB-" ++ pyUpper pbu ++ "-" ++ cif, bci, token_key, pyUpper pbu,
         now, now, rid, payload⟩)) now cfg.token_ttl cfg.secret,
      create_access_token (token_data_of (.str (pyUpper pbu)) (SessionData.dict
        ⟨cif, "VPB-" ++ pyUpper pbu ++ "-" ++ cif, bci, token_key, pyUpper pbu,
         now, now, rid, payload⟩)) now cfg.token_ttl cfg.secret,
      pyUpper pbu ++ " session initialized successfully"⟩,
    ⟨st.connected, st.getFails, st.setFails,
     alistSet st.store ("session:" ++ ("VPB-" ++ pyUpper pbu ++ "-" ++ cif))
       (.jsonOf (SessionData.dict
         ⟨cif, "VPB-" ++ pyUpper pbu ++ "-" ++ cif, bci, token_key, pyUpper pbu,
          now, now, rid, payload⟩), some cfg.session_ttl)⟩,
    ?_, SignedToken.encoded_ne_empty _, SignedToken.encoded_ne_empty _, rfl,
    alistGet_alistSet_self st.store _ _, fun rec => ⟨rfl, rfl, rfl⟩⟩
  simp only [init_postlogin_user_session, hcid, Option.getD_some, JVal.truthy,
    hcide, Bool.not_false, Bool.not_true, if_false, _get_channel_setting, hch,
    settingFalsy, hcse, hpbu, strOptFalsy, hpbue, hconn,
    RedisService.set, hset, httlb, if_true, _create_tokens]
  simp

/-- C3 witness: a concrete initialization over the repository channel
table with channel `sme` yields business unit `SME`, principal
`VPB-SME-777`, non-empty tokens and a store entry whose `token_key` is
the supplied credential and whose timestamps both equal the request
instant. -/
theorem init_success_persists_credential_witness :
    ∃ resp st2,
      init_postlogin_user_session mock_channels cfg0 st0 "777" bci0 "cred-7"
        [("channelId", .str "sme")] "r7" 2000 = (.ok resp, st2) ∧
      resp.token.encoded ≠ "" ∧
      resp.refreshToken.encoded ≠ "" ∧
      resp.message = pyUpper "SME" ++ " session initialized successfully" ∧
      alistGet st2.store ("session:" ++ ("VPB-" ++ pyUpper "SME" ++ "-" ++ "777")) =
        some (.jsonOf (SessionData.dict
          ⟨"777", "VPB-" ++ pyUpper "SME" ++ "-" ++ "777", bci0, "cred-7", pyUpper "SME",
           2000, 2000, "r7", [("channelId", .str "sme")]⟩), some cfg0.session_ttl) ∧
      (∀ rec : SessionData,
        alistGet rec.dict "token_key" = some (.str rec.token_key) ∧
        alistGet rec.dict "created_at" = some (.num rec.created_at) ∧
        alistGet rec.dict "updated_at" = some (.num rec.updated_at)) := by
  exact init_success_persists_credential mock_channels cfg0 st0 "777" bci0 "cred-7"
    [("channelId", .str "sme")] "r7" 2000 "sme"
    [("id", "sme"), ("postLoginBu", "SME")] "SME"
    rfl (by decide) rfl (by decide) rfl (by decide) rfl rfl (by decide)

/-- With present configuration, a non-empty user id and string-valued
credential and request id, the SME verification path never raises and its
result is exactly `smeOutcomeValid` of the HTTP outcome. -/
theorem verify_token_sme_eval (cfg : SmeConfig) (fresh : String)
    (out : HttpOutcome) (tks uid rs : String)
    (hurl : optFalsy cfg.sme_verify_base_url = false)
    (hkey : optFalsy cfg.sme_verify_token_key = false)
    (hue : uid.isEmpty = false) :
    verify_token (.str "SME") (.str tks) (.str uid) (.str rs) cfg fresh out =
      .ok (smeOutcomeValid out) := by
  have hxreq : (sme_x_request_id (pyOrJ (.str rs) (.str "")) (.str uid) fresh).isStr = true := by
    exact pyOrJ_isStr _ _ (pyOrJ_isStr _ _ rfl rfl) (pyOrJ_isStr _ _ rfl rfl)
  have hsess : (JVal.str tks).isStr = true := rfl
  have huser : (JVal.str uid).isStr = true := rfl
  simp only [verify_token, JVal.eqStr, beq_self_eq_true, if_true, JVal.truthy,
    hue, Bool.not_false, if_false, verify_sme_token, hurl, hkey, hxreq, hsess,
    huser, Bool.and_self, Bool.and_true, Bool.true_and, Bool.not_true,
    Bool.false_eq_true, if_false]
  cases out with
  | transportError => simp [smeOutcomeValid]
  | response status body =>
      by_cases h200 : status = 200
      · subst h200
        simp only [bne_self_eq_false, Bool.false_eq_true, if_false]
        cases body with
        | none => simp [smeOutcomeValid]
        | some rd =>
            simp only [smeOutcomeValid, sme_is_valid_of_body]
            cases hdata : alistGet rd "data" with
            | none => simp
            | some v =>
                cases v <;> simp
      · have hbne : (status != 200) = true := by simpa using h200
        simp only [hbne, if_true]
        simp [smeOutcomeValid, h200]

/-- C4: for business unit SME with verifier configuration present and a
non-empty user id, `verify_token` never raises from the verification
path, and it returns `true` exactly when the outbound call answered
HTTP 200 with a parseable body whose `data.isExpire` field is the boolean
`false`; a non-200 status, a transport exception, an unparseable body and
an absent or `true` `isExpire` all yield `false` (fail-closed). The
typing hypothesis restricts `isExpire`, when present, to the boolean the
external interface declares. -/
theorem verify_token_sme_fail_closed
    (cfg : SmeConfig) (fresh : String) (out : HttpOutcome) (tks uid rs : String)
    (hurl : optFalsy cfg.sme_verify_base_url = false)
    (hkey : optFalsy cfg.sme_verify_token_key = false)
    (huid : uid ≠ "")
    (hty : isExpireTyped out = true) :
    (∃ r, verify_token (.str "SME") (.str tks) (.str uid) (.str rs) cfg fresh out = .ok r) ∧
    (verify_token (.str "SME") (.str tks) (.str uid) (.str rs) cfg fresh out = .ok true ↔
      ∃ b d, out = .response 200 (some b) ∧ alistGet b "data" = some (.obj d) ∧
        alistGet d "isExpire" = some (.bool false)) := by
  have hue : uid.isEmpty = false := by
    cases h : uid.isEmpty
    · rfl
    · exact absurd ((String.isEmpty_iff uid).mp h) huid
  have heval := verify_token_sme_eval cfg fresh out tks uid rs hurl hkey hue
  refine ⟨⟨smeOutcomeValid out, heval⟩, ?_⟩
  rw [heval]
  constructor
  · intro h
    have hv : smeOutcomeValid out = true := by
      injection h
    cases out with
    | transportError => simp [smeOutcomeValid] at hv
    | response status body =>
        cases body with
        | none =>
            by_cases h200 : status = 200 <;>
              simp [smeOutcomeValid, h200] at hv
        | some rd =>
            by_cases h200 : status = 200
            · subst h200
              refine ⟨rd, ?_⟩
              simp only [smeOutcomeValid] at hv
              cases hdata : alistGet rd "data" with
              | none => rw [hdata] at hv; simp at hv
              | some v =>
                  cases v with
                  | obj d =>
                      rw [hdata] at hv
                      simp only [Bool.not_eq_true'] at hv
                      refine ⟨d, rfl, rfl, ?_⟩
                      simp only [isExpireTyped, hdata] at hty
                      cases hie : alistGet d "isExpire" with
                      | none => rw [hie] at hv; simp [JVal.truthy] at hv
                      | some w =>
                          rw [hie] at hv
                          rw [hie] at hty
                          cases w with
                          | bool b =>
                              cases b with
                              | true => simp [JVal.truthy] at hv
                              | false => rfl
                          | str s => simp at hty
                          | num n => simp at hty
                          | obj l => simp at hty
                          | info i => simp at hty
                          | null => simp at hty
                  | str s => rw [hdata] at hv; simp at hv
                  | num n => rw [hdata] at hv; simp at hv
                  | bool b => rw [hdata] at hv; simp at hv
                  | info i => rw [hdata] at hv; simp at hv
                  | null => rw [hdata] at hv; simp at hv
            · simp [smeOutcomeValid, h200] at hv
  · rintro ⟨b, d, rfl, hd, hie⟩
    simp [smeOutcomeValid, hd, hie, JVal.truthy]

/-- C4 witness: with the concrete present configuration, non-empty user
id and a 200 not-expired response, verification returns a value without
raising, and it returns `true` exactly on the not-expired body. -/
theorem verify_token_sme_fail_closed_witness :
    (∃ r, verify_token (.str "SME") (.str "tk-1") (.str "user-1") (.str "") vcfg0
      "fresh-1" outOk = .ok r) ∧
    (verify_token (.str "SME") (.str "tk-1") (.str "user-1") (.str "") vcfg0
      "fresh-1" outOk = .ok true ↔
      ∃ b d, outOk = .response 200 (some b) ∧ alistGet b "data" = some (.obj d) ∧
        alistGet d "isExpire" = some (.bool false)) :=
  verify_token_sme_fail_closed vcfg0 "fresh-1" outOk "tk-1" "user-1" ""
    rfl rfl (by decide) rfl

/-- C5: during renewal, a decode failure of the refresh token raises
400 "Invalid refresh token"; decoded claims missing `chatUsername` or
`bu` raise the same undistinguished error; an absent store entry for
`session:<principal>` raises 404 "Session not found"; a present but
unparseable entry raises the internal error 500 "Invalid session data".
In every case the store is left untouched. -/
theorem renew_decode_and_load_error_paths
    (cfg : ServiceConfig) (st : RedisState) (now : Nat) (fresh : String)
    (vcfg : SmeConfig) (out : HttpOutcome) :
    (∀ rt e, rt.isEmptyTok = false →
      _decode_access_token rt now cfg.secret = .error e →
      renew_postlogin_user_token cfg st rt now fresh vcfg out =
        (.error ⟨400, "Invalid refresh token"⟩, st)) ∧
    (∀ rt claims, rt.isEmptyTok = false →
      _decode_access_token rt now cfg.secret = .ok claims →
      (alistGet claims "chatUsername" = none ∨ alistGet claims "bu" = none) →
      renew_postlogin_user_token cfg st rt now fresh vcfg out =
        (.error ⟨400, "Invalid refresh token"⟩, st)) ∧
    (∀ rt claims cu bu, rt.isEmptyTok = false →
      _decode_access_token rt now cfg.secret = .ok claims →
      alistGet claims "chatUsername" = some cu → cu.truthy = true →
      alistGet claims "bu" = some bu → bu.truthy = true →
      RedisService.get st ("session:" ++ cu.fstr) = none →
      renew_postlogin_user_token cfg st rt now fresh vcfg out =
        (.error ⟨404, "Session not found"⟩, st)) ∧
    (∀ rt claims cu bu s, rt.isEmptyTok = false →
      _decode_access_token rt now cfg.secret = .ok claims →
      alistGet claims "chatUsername" = some cu → cu.truthy = true →
      alistGet claims "bu" = some bu → bu.truthy = true →
      RedisService.get st ("session:" ++ cu.fstr) = some (.raw s) → s ≠ "" →
      renew_postlogin_user_token cfg st rt now fresh vcfg out =
        (.error ⟨500, "Invalid session data"⟩, st)) := by
  refine ⟨?_, ?_, ?_, ?_⟩
  · intro rt e h1 h2
    simp only [renew_postlogin_user_token, h1, Bool.false_eq_true, if_false, h2]
  · intro rt claims h1 h2 h3
    rcases h3 with h3 | h3
    · simp only [renew_postlogin_user_token, h1, Bool.false_eq_true, if_false,
        h2, h3, Option.getD_none, JVal.truthy, Bool.not_false, Bool.true_or,
        if_true]
    · simp only [renew_postlogin_user_token, h1, Bool.false_eq_true, if_false,
        h2, h3, Option.getD_none, JVal.truthy, Bool.not_false, Bool.or_true,
        if_true]
  · intro rt claims cu bu h1 h2 h3 h4 h5 h6 h7
    simp only [renew_postlogin_user_token, h1, Bool.false_eq_true, if_false,
      h2, h3, h5, Option.getD_some, h4, h6, Bool.not_true, Bool.or_self,
      if_false, h7]
  · intro rt claims cu bu s h1 h2 h3 h4 h5 h6 h7 h8
    have hse : s.isEmpty = false := by
      cases h : s.isEmpty
      · rfl
      · exact absurd ((String.isEmpty_iff s).mp h) h8
    simp only [renew_postlogin_user_token, h1, Bool.false_eq_true, if_false,
      h2, h3, h5, Option.getD_some, h4, h6, Bool.not_true, Bool.or_self,
      if_false, h7, RedisVal.rtruthy, hse, Bool.not_false, if_true]

/-- C5 witness: concrete runs of the four renewal error paths — a
malformed token, a token without the `bu` claim, a principal with no
stored session, and a stored entry that is not parseable JSON. -/
theorem renew_decode_and_load_error_paths_witness :
    renew_postlogin_user_token cfg0 st0 (.malformed "junk") 50 "f" vcfg0 outErr =
      (.error ⟨400, "Invalid refresh token"⟩, st0) ∧
    renew_postlogin_user_token cfg0 st0 rtNoBu 1000 "f" vcfg0 outErr =
      (.error ⟨400, "Invalid refresh token"⟩, st0) ∧
    renew_postlogin_user_token cfg0 stCamel rtBob 1000 "f" vcfg0 outErr =
      (.error ⟨404, "Session not found"⟩, stCamel) ∧
    renew_postlogin_user_token cfg0 stRaw rtAlice 1000 "f" vcfg0 outErr =
      (.error ⟨500, "Invalid session data"⟩, stRaw) :=
  ⟨(renew_decode_and_load_error_paths cfg0 st0 50 "f" vcfg0 outErr).1
      (.malformed "junk") ⟨401, "Malformed token"⟩ rfl rfl,
   (renew_decode_and_load_error_paths cfg0 st0 1000 "f" vcfg0 outErr).2.1
      rtNoBu [("chatUsername", .str "alice")] rfl rfl (Or.inr rfl),
   (renew_decode_and_load_error_paths cfg0 stCamel 1000 "f" vcfg0 outErr).2.2.1
      rtBob [("chatUsername", .str "bob"), ("bu", .str "SME")]
      (.str "bob") (.str "SME") rfl rfl rfl rfl rfl rfl rfl,
   (renew_decode_and_load_error_paths cfg0 stRaw 1000 "f" vcfg0 outErr).2.2.2
      rtAlice [("chatUsername", .str "alice"), ("bu", .str "SME")]
      (.str "alice") (.str "SME") "garbage" rfl rfl rfl rfl rfl rfl rfl (by decide)⟩

/-- C6: initialization resolves the channel before any token minting or
store write, in this order: a missing or falsy `channelId` raises
400 "Invalid channel id"; a channel id absent from the table raises
404 "Cannot find channel with id `cid`"; a resolved channel without a
`postLoginBu` mapping raises the distinct 404
"Missing BU in channel with id `cid`". Each error returns the store
exactly as received. -/
theorem init_channel_resolution_errors
    (channels : ChannelTable) (cfg : ServiceConfig) (st : RedisState)
    (cif : String) (bci : BasicCustomerInfo) (token_key : String)
    (rid : String) (now : Nat) :
    (∀ payload, ((alistGet payload "channelId").getD .null).truthy = false →
      init_postlogin_user_session channels cfg st cif bci token_key payload rid now =
        (.error ⟨400, "Invalid channel id"⟩, st)) ∧
    (∀ payload cid, alistGet payload "channelId" = some (.str cid) → cid ≠ "" →
      alistGet channels cid = none →
      init_postlogin_user_session channels cfg st cif bci token_key payload rid now =
        (.error ⟨404, "Cannot find channel with id " ++ cid⟩, st)) ∧
    (∀ payload cid cs, alistGet payload "channelId" = some (.str cid) → cid ≠ "" →
      alistGet channels cid = some cs → cs ≠ [] →
      strOptFalsy (alistGet cs "postLoginBu") = true →
      init_postlogin_user_session channels cfg st cif bci token_key payload rid now =
        (.error ⟨404, "Missing BU in channel with id " ++ cid⟩, st)) := by
  refine ⟨?_, ?_, ?_⟩
  · intro payload h1
    simp only [init_postlogin_user_session, h1, Bool.not_false, if_true]
  · intro payload cid h1 h2 h3
    have hcide : cid.isEmpty = false := by
      cases h : cid.isEmpty
      · rfl
      · exact absurd ((String.isEmpty_iff cid).mp h) h2
    simp only [init_postlogin_user_session, h1, Option.getD_some, JVal.truthy,
      hcide, Bool.not_false, Bool.not_true, if_false, _get_channel_setting, h3,
      settingFalsy, if_true, JVal.fstr]
    simp
  · intro payload cid cs h1 h2 h3 h4 h5
    have hcide : cid.isEmpty = false := by
      cases h : cid.isEmpty
      · rfl
      · exact absurd ((String.isEmpty_iff cid).mp h) h2
    have hcse : cs.isEmpty = false := by
      cases h : cs.isEmpty
      · rfl
      · exact absurd (List.isEmpty_iff.mp h) h4
    simp only [init_postlogin_user_session, h1, Option.getD_some, JVal.truthy,
      hcide, Bool.not_false, Bool.not_true, if_false, _get_channel_setting, h3,
      settingFalsy, hcse, h5, if_true, JVal.fstr]
    simp

/-- C6 witness: concrete runs of the three channel-resolution failures —
an empty payload, the unknown channel id `unknown` against the repository
table, and a channel without a business-unit mapping. -/
theorem init_channel_resolution_errors_witness :
    init_postlogin_user_session mock_channels cfg0 st0 "1" bci0 "tk" [] "r" 5 =
      (.error ⟨400, "Invalid channel id"⟩, st0) ∧
    init_postlogin_user_session mock_channels cfg0 st0 "1" bci0 "tk"
      [("channelId", .str "unknown")] "r" 5 =
      (.error ⟨404, "Cannot find channel with id unknown"⟩, st0) ∧
    init_postlogin_user_session chNoBu cfg0 st0 "1" bci0 "tk"
      [("channelId", .str "nobu")] "r" 5 =
      (.error ⟨404, "Missing BU in channel with id nobu"⟩, st0) :=
  ⟨(init_channel_resolution_errors mock_channels cfg0 st0 "1" bci0 "tk" "r" 5).1
      [] rfl,
   (init_channel_resolution_errors mock_channels cfg0 st0 "1" bci0 "tk" "r" 5).2.1
      [("channelId", .str "unknown")] "unknown" rfl (by decide) rfl,
   (init_channel_resolution_errors chNoBu cfg0 st0 "1" bci0 "tk" "r" 5).2.2
      [("channelId", .str "nobu")] "nobu" [("id", "nobu")] rfl (by decide) rfl
      (by decide) rfl⟩

/-- C7: the store write never raises — `RedisService.set` catches every
failure and returns `false` with the table untouched — and both
orchestrator flows discard that boolean: an initialization and a renewal
whose persist step fails still return a success result with freshly
minted tokens, while the store is exactly as it was before the call, so a
success response does not guarantee a durably stored session record. -/
theorem persist_failure_is_ignored (cfg : ServiceConfig) :
    (∀ st k v t, st.setFails = true → RedisService.set st k v t = (st, false)) ∧
    (∀ channels st cif bci token_key payload rid now cid cs pbu,
      alistGet payload "channelId" = some (.str cid) → cid ≠ "" →
      alistGet channels cid = some (cs : ChannelSetting) → cs ≠ [] →
      alistGet cs "postLoginBu" = some pbu → pbu ≠ "" →
      st.connected = true → st.setFails = true →
      ∃ resp, init_postlogin_user_session channels cfg st cif
        (bci : BasicCustomerInfo) token_key payload rid now = (.ok resp, st)) ∧
    (∀ st rt now fresh vcfg out claims cu bu tk parsed,
      WireToken.isEmptyTok rt = false →
      _decode_access_token rt now cfg.secret = .ok claims →
      alistGet claims "chatUsername" = some cu → cu.truthy = true →
      alistGet claims "bu" = some bu → bu.truthy = true →
      RedisService.get st ("session:" ++ cu.fstr) = some (.jsonOf parsed) →
      alistGet parsed "tokenKey" = some tk → tk.truthy = true →
      verify_token bu tk ((alistGet parsed "cif").getD .null)
        (pyOrJ ((alistGet parsed "requestIdHeader").getD (.str "")) (.str ""))
        vcfg fresh out = .ok true →
      st.setFails = true →
      ∃ resp, renew_postlogin_user_token cfg st rt now fresh vcfg out =
        (.ok resp, st)) := by
  refine ⟨?_, ?_, ?_⟩
  · intro st k v t h
    by_cases hc : st.connected <;> simp [RedisService.set, hc, h]
  · intro channels st cif bci token_key payload rid now cid cs pbu
      h1 h2 h3 h4 h5 h6 h7 h8
    have hcide : cid.isEmpty = false := by
      cases h : cid.isEmpty
      · rfl
      · exact absurd ((String.isEmpty_iff cid).mp h) h2
    have hcse : cs.isEmpty = false := by
      cases h : cs.isEmpty
      · rfl
      · exact absurd (List.isEmpty_iff.mp h) h4
    have hpbue : pbu.isEmpty = false := by
      cases h : pbu.isEmpty
      · rfl
      · exact absurd ((String.isEmpty_iff pbu).mp h) h6
    refine ⟨⟨create_access_token (token_data_of (.str (pyUpper pbu)) (SessionData.dict
        ⟨cif, "VPB-" ++ pyUpper pbu ++ "-" ++ cif, bci, token_key, pyUpper pbu,
         now, now, rid, payload⟩)) now cfg.token_ttl cfg.secret,
      create_access_token (token_data_of (.str (pyUpper pbu)) (SessionData.dict
        ⟨cif, "VPB-" ++ pyUpper pbu ++ "-" ++ cif, bci, token_key, pyUpper pbu,
         now, now, rid, payload⟩)) now cfg.token_ttl cfg.secret,
      pyUpper pbu ++ " session initialized successfully"⟩, ?_⟩
    simp only [init_postlogin_user_session, h1, Option.getD_some, JVal.truthy,
      hcide, Bool.not_false, Bool.not_true, if_false, _get_channel_setting, h3,
      settingFalsy, hcse, h5, strOptFalsy, hpbue, h7,
      RedisService.set, h8, if_true, _create_tokens]
    simp
  · intro st rt now fresh vcfg out claims cu bu tk parsed
      h1 h2 h3 h4 h5 h6 h7 h8 h9 h10 h11
    refine ⟨⟨create_access_token
        (token_data_of bu (alistSet parsed "updated_at" (.num now)))
        now cfg.token_ttl cfg.secret,
      create_access_token
        (token_data_of bu (alistSet parsed "updated_at" (.num now)))
        now cfg.token_ttl cfg.secret,
      bu.fstr ++ " token renewed successfully"⟩, ?_⟩
    simp only [renew_postlogin_user_token, h1, Bool.false_eq_true, if_false,
      h2, h3, h5, Option.getD_some, h4, h6, Bool.not_true, Bool.or_self,
      h7, RedisVal.rtruthy, h8, h9, Bool.not_false, h10, if_true,
      RedisService.set, h11, _create_tokens]
    simp

/-- C7 witness: a concrete failing write returns `false` and changes
nothing, and concrete initialization and renewal calls over stores whose
write fails still answer success with the store unchanged. -/
theorem persist_failure_is_ignored_witness :
    RedisService.set stSetFail "k" (.raw "v") (some 5) = (stSetFail, false) ∧
    (∃ resp, init_postlogin_user_session mock_channels cfg0 stSetFail "777" bci0
      "cred-7" [("channelId", .str "sme")] "r7" 2000 = (.ok resp, stSetFail)) ∧
    (∃ resp, renew_postlogin_user_token cfg0 stCamelSetFail rtAlice 1000 "f"
      vcfg0 outOk = (.ok resp, stCamelSetFail)) :=
  ⟨(persist_failure_is_ignored cfg0).1 stSetFail "k" (.raw "v") (some 5) rfl,
   (persist_failure_is_ignored cfg0).2.1 mock_channels stSetFail "777" bci0
      "cred-7" [("channelId", .str "sme")] "r7" 2000 "sme"
      [("id", "sme"), ("postLoginBu", "SME")] "SME"
      rfl (by decide) rfl (by decide) rfl (by decide) rfl rfl,
   (persist_failure_is_ignored cfg0).2.2 stCamelSetFail rtAlice 1000 "f" vcfg0
      outOk [("chatUsername", .str "alice"), ("bu", .str "SME")]
      (.str "alice") (.str "SME") (.str "tk-9") sessCamel
      rfl rfl rfl rfl rfl rfl rfl rfl rfl rfl rfl⟩

/-- C8 counterexample: the claim states that `get` reports a missing key
distinctly from a connectivity failure; on the code both come back as
`None`. At a connected empty store and at a store whose read raises, the
two outcomes are the same value. -/
theorem get_absence_indistinct_from_failure :
    RedisService.get st0 "k" = none ∧
    RedisService.get stGetFail "k" = none ∧
    RedisService.get st0 "k" = RedisService.get stGetFail "k" :=
  ⟨rfl, rfl, rfl⟩

/-- C8 amended: `get` never throws — a missing key, an absent client and
a connectivity failure all yield `None`, so absence is NOT distinguishable
from failure on reads; `put` does surface failure distinguishably,
returning `true` exactly on a successful write and `false` on any
failure. -/
theorem store_failure_semantics_amended
    (st : RedisState) (k : String) (v : RedisVal) (t : Option Nat) :
    (st.connected = true → st.getFails = false → alistGet st.store k = none →
      RedisService.get st k = none) ∧
    (st.getFails = true → st.connected = true → RedisService.get st k = none) ∧
    (st.connected = false → RedisService.get st k = none) ∧
    (st.connected = true → st.setFails = false → (RedisService.set st k v t).2 = true) ∧
    (st.setFails = true → (RedisService.set st k v t).2 = false) ∧
    (st.connected = false → (RedisService.set st k v t).2 = false) := by
  refine ⟨?_, ?_, ?_, ?_, ?_, ?_⟩
  · intro h1 h2 h3
    simp [RedisService.get, h1, h2, h3]
  · intro h1 h2
    simp [RedisService.get, h1, h2]
  · intro h1
    simp [RedisService.get, h1]
  · intro h1 h2
    cases t with
    | none => simp [RedisService.set, h1, h2]
    | some tt =>
        by_cases h0 : (tt != 0) = true <;> simp [RedisService.set, h1, h2, h0]
  · intro h1
    by_cases hc : st.connected <;> simp [RedisService.set, hc, h1]
  · intro h1
    simp [RedisService.set, h1]

/-- C8 witness: concrete reads and writes — a missing key and a failing
read both answer `None`; a healthy write answers `true`, a failing write
`false`. -/
theorem store_failure_semantics_amended_witness :
    RedisService.get st0 "k" = none ∧
    RedisService.get stGetFail "k" = none ∧
    (RedisService.set st0 "k" (.raw "x") (some 7)).2 = true ∧
    (RedisService.set stSetFail "k" (.raw "x") (some 7)).2 = false :=
  ⟨(store_failure_semantics_amended st0 "k" (.raw "x") (some 7)).1 rfl rfl rfl,
   (store_failure_semantics_amended stGetFail "k" (.raw "x") (some 7)).2.1 rfl rfl,
   (store_failure_semantics_amended st0 "k" (.raw "x") (some 7)).2.2.2.1 rfl rfl,
   (store_failure_semantics_amended stSetFail "k" (.raw "x") (some 7)).2.2.2.2.1 rfl⟩

/-- C9 counterexample: the claim states that when no correlation id is
supplied the outbound x-request-id header is a freshly generated unique
id; on the code the fallback chain tries the user id first. With an empty
requestId and user id `user-1`, the header the verifier builds is
`user-1`, not the fresh id. -/
theorem request_id_fallback_uses_userId :
    ∃ hs r, verify_sme_token vcfg0 ⟨.str "user-1", .str "", .str "tk-1"⟩
      "fresh-uuid-1" outErr = .ok (hs, r) ∧
      hs.x_request_id = .str "user-1" ∧ hs.x_request_id ≠ .str "fresh-uuid-1" := by
  refine ⟨_, _, rfl, rfl, ?_⟩
  intro h
  rw [show sme_x_request_id (.str "") (.str "user-1") "fresh-uuid-1" =
    JVal.str "user-1" from rfl] at h
  injection h with h2
  exact absurd h2 (by decide)

/-- C9 amended: when the supplied requestId is falsy, the x-request-id
header falls back to the userId if that is truthy, and only otherwise to
the freshly generated unique id (in the SME path the userId is always
non-empty, so the fresh-id fallback is unreachable there). -/
theorem sme_request_id_fallback_policy (rid uid : JVal) (fresh : String)
    (h : rid.truthy = false) :
    sme_x_request_id rid uid fresh = if uid.truthy then uid else .str fresh := by
  simp [sme_x_request_id, pyOrJ, h]

/-- C9 witness: with an empty requestId and the truthy userId `u`, the
header is `u`. -/
theorem sme_request_id_fallback_policy_witness :
    sme_x_request_id (.str "") (.str "u") "f" =
      if (JVal.str "u").truthy then JVal.str "u" else .str "f" :=
  sme_request_id_fallback_policy (.str "") (.str "u") "f" rfl

/-- C10: decoding a token minted from a claim set returns exactly that
claim set as long as the decode instant precedes the expiry, and the
access and refresh tokens of `_create_tokens` are minted through the
identical signing path from the identical claim set — they are the same
token value. -/
theorem token_roundtrip_and_identical_minting
    (data : List (String × JVal)) (now ttl t : Nat) (secret : String)
    (bu : JVal) (sd : List (String × JVal))
    (h : t < now + ttl) :
    _decode_access_token (.signed (create_access_token data now ttl secret)) t secret =
      .ok data ∧
    (_create_tokens bu sd now ttl secret).1 = (_create_tokens bu sd now ttl secret).2 ∧
    (_create_tokens bu sd now ttl secret).1 =
      create_access_token (token_data_of bu sd) now ttl secret := by
  refine ⟨?_, rfl, rfl⟩
  simp only [_decode_access_token, create_access_token, bne_self_eq_false,
    Bool.false_eq_true, if_false]
  simp [Nat.not_le.mpr h]

/-- C10 witness: a concrete mint-then-decode round trip before expiry. -/
theorem token_roundtrip_and_identical_minting_witness :
    _decode_access_token
      (.signed (create_access_token [("chatUsername", .str "x")] 10 5 "s")) 12 "s" =
      .ok [("chatUsername", .str "x")] ∧
    (_create_tokens (.str "SME") [] 10 5 "s").1 = (_create_tokens (.str "SME") [] 10 5 "s").2 ∧
    (_create_tokens (.str "SME") [] 10 5 "s").1 =
      create_access_token (token_data_of (.str "SME") []) 10 5 "s" :=
  token_roundtrip_and_identical_minting [("chatUsername", .str "x")] 10 5 12 "s"
    (.str "SME") [] (by decide)

end Postlogin
